import Mathlib

/-!
Verification development for the SICD image-projection kernel
(sarkit/standards/sicd/projection/calc.py).

The numeric core is embedded over the exact rationals: every numpy array
operation in the source is elementwise over a trailing xyz axis, so vectors
become the structure `Vec3` and batches become `List`s.  IEEE square roots
are modelled by the exact partial rational square root `ratSqrt`, which
returns `none` when the radicand is not a perfect rational square; concrete
inputs in the theorems below are chosen so that every root taken is exact.
Trigonometric routines (np.cos / np.sin) and the external geodetic library
(sarkit.standards.geocoords, outside this repository) are taken as oracle
function parameters, since none of the verified properties depend on their
values.  IEEE NaN "no solution" outputs are modelled with `Option`.
-/

/-- ECEF (or any 3-D) vector with rational components, modelling a trailing
xyz axis of a numpy array. -/
structure Vec3 where
  x : ℚ
  y : ℚ
  z : ℚ
deriving DecidableEq

def vadd (a b : Vec3) : Vec3 := ⟨a.x + b.x, a.y + b.y, a.z + b.z⟩

def vsub (a b : Vec3) : Vec3 := ⟨a.x - b.x, a.y - b.y, a.z - b.z⟩

def vneg (a : Vec3) : Vec3 := ⟨-a.x, -a.y, -a.z⟩

def vsmul (c : ℚ) (a : Vec3) : Vec3 := ⟨c * a.x, c * a.y, c * a.z⟩

instance : Add Vec3 := ⟨vadd⟩

instance : Sub Vec3 := ⟨vsub⟩

instance : Neg Vec3 := ⟨vneg⟩

instance : SMul ℚ Vec3 := ⟨vsmul⟩

/-- Dot product, modelling (a * b).sum(axis=-1). -/
def dotV (a b : Vec3) : ℚ := a.x * b.x + a.y * b.y + a.z * b.z

/-- Cross product, modelling np.cross on the last axis. -/
def crossV (a b : Vec3) : Vec3 :=
  ⟨a.y * b.z - a.z * b.y, a.z * b.x - a.x * b.z, a.x * b.y - a.y * b.x⟩

/-- Squared Euclidean norm; np.linalg.norm(v) squared. -/
def normSqV (a : Vec3) : ℚ := dotV a a

def vzero : Vec3 := ⟨0, 0, 0⟩

@[simp] theorem vadd_x (a b : Vec3) : (a + b).x = a.x + b.x := rfl
@[simp] theorem vadd_y (a b : Vec3) : (a + b).y = a.y + b.y := rfl
@[simp] theorem vadd_z (a b : Vec3) : (a + b).z = a.z + b.z := rfl
@[simp] theorem vsub_x (a b : Vec3) : (a - b).x = a.x - b.x := rfl
@[simp] theorem vsub_y (a b : Vec3) : (a - b).y = a.y - b.y := rfl
@[simp] theorem vsub_z (a b : Vec3) : (a - b).z = a.z - b.z := rfl
@[simp] theorem vneg_x (a : Vec3) : (-a).x = -a.x := rfl
@[simp] theorem vneg_y (a : Vec3) : (-a).y = -a.y := rfl
@[simp] theorem vneg_z (a : Vec3) : (-a).z = -a.z := rfl
@[simp] theorem vsmul_x (c : ℚ) (a : Vec3) : (c • a).x = c * a.x := rfl
@[simp] theorem vsmul_y (c : ℚ) (a : Vec3) : (c • a).y = c * a.y := rfl
@[simp] theorem vsmul_z (c : ℚ) (a : Vec3) : (c • a).z = c * a.z := rfl

theorem Vec3.ext3 (a b : Vec3) (hx : a.x = b.x) (hy : a.y = b.y) (hz : a.z = b.z) :
    a = b := by
  cases a
  cases b
  simp_all

/-- Lagrange identity in three dimensions, relating the cross product,
the dot product and the norms. -/
theorem lagrange_identity (u v : Vec3) :
    normSqV (crossV u v) = normSqV u * normSqV v - dotV u v ^ 2 := by
  rcases u with ⟨a, b, c⟩
  rcases v with ⟨d, e, f⟩
  simp only [normSqV, dotV, crossV]
  ring

theorem normSqV_pos_of_ne (v : Vec3) (hv : v ≠ vzero) : 0 < normSqV v := by
  rcases v with ⟨a, b, c⟩
  have hform : normSqV ⟨a, b, c⟩ = a ^ 2 + b ^ 2 + c ^ 2 := by
    simp only [normSqV, dotV]
    ring
  rw [hform]
  rcases lt_or_le 0 (a ^ 2 + b ^ 2 + c ^ 2) with h | h
  · exact h
  · exfalso
    apply hv
    have ha : a = 0 := by nlinarith [sq_nonneg a, sq_nonneg b, sq_nonneg c]
    have hb : b = 0 := by nlinarith [sq_nonneg a, sq_nonneg b, sq_nonneg c]
    have hc : c = 0 := by nlinarith [sq_nonneg a, sq_nonneg b, sq_nonneg c]
    simp [vzero, ha, hb, hc]

theorem normSqV_vneg (v : Vec3) : normSqV (-v) = normSqV v := by
  rcases v with ⟨a, b, c⟩
  simp only [normSqV, dotV, vneg_x, vneg_y, vneg_z]
  ring

/-- Exact square root of a natural number, when it exists. -/
def natSqrtExact (n : ℕ) : Option ℕ :=
  (List.range (n + 1)).find? (fun k => k * k == n)

/-- Exact square root of a rational, when it exists; models an IEEE
np.sqrt whose result the development only relies on at perfect squares. -/
def ratSqrt (q : ℚ) : Option ℚ :=
  if 0 ≤ q then
    match natSqrtExact q.num.toNat, natSqrtExact q.den with
    | some a, some b => some ((a : ℚ) / (b : ℚ))
    | _, _ => none
  else none

/-- Comparison d <= t where d models a possibly-NaN float (none = NaN);
IEEE comparisons with NaN are false. -/
def oLe (d : Option ℚ) (t : ℚ) : Bool :=
  match d with
  | none => false
  | some v => decide (v ≤ t)

/-- Comparison d > t where d models a possibly-NaN float (none = NaN). -/
def oGt (d : Option ℚ) (t : ℚ) : Bool :=
  match d with
  | none => false
  | some v => decide (t < v)

/-- Both components of a 2-vector result are within tol of the target pair
(false when the computation was NaN / model-undefined). -/
def within_pair (o : Option (ℚ × ℚ)) (L : ℚ × ℚ) (tol : ℚ) : Bool :=
  match o with
  | none => false
  | some out => decide (|out.1 - L.1| ≤ tol) && decide (|out.2 - L.2| ≤ tol)

/-- Evaluation of a 1-D polynomial given by its coefficient list
(c 0 + c 1 * t + ...), modelling npp.polyval. -/
def polyvalQ (c : List ℚ) (t : ℚ) : ℚ :=
  c.foldr (fun a acc => a + t * acc) 0

/-- Evaluation of an xyz polynomial (coefficient list of 3-vectors),
modelling _xyzpolyval (calc.py lines 13-17). -/
def polyvalV (c : List Vec3) (t : ℚ) : Vec3 :=
  c.foldr (fun a acc => a + t • acc) vzero

def polyderQAux : ℕ → List ℚ → List ℚ
  | _, [] => []
  | i, a :: rest => (i : ℚ) * a :: polyderQAux (i + 1) rest

/-- Derivative of a 1-D polynomial coefficient list, modelling npp.polyder. -/
def polyderQ (c : List ℚ) : List ℚ := polyderQAux 1 (c.drop 1)

def polyderVAux : ℕ → List Vec3 → List Vec3
  | _, [] => []
  | i, a :: rest => (i : ℚ) • a :: polyderVAux (i + 1) rest

/-- Derivative of an xyz polynomial coefficient list, modelling npp.polyder. -/
def polyderV (c : List Vec3) : List Vec3 := polyderVAux 1 (c.drop 1)

/-- Evaluation of a 2-D polynomial with coefficient matrix c over (x, y):
sum of c i j * x^i * y^j, modelling npp.polyval2d. -/
def polyval2dQ (c : List (List ℚ)) (x y : ℚ) : ℚ :=
  c.foldr (fun row acc => polyvalQ row y + x * acc) 0

/-- Speed of light in m/s (sarkit.constants.speed_of_light). -/
def speed_of_light : ℚ := 299792458

/-- Collect_Type values (params.MetadataParams). -/
inductive CollectType
  | MONOSTATIC
  | BISTATIC
deriving DecidableEq

/-- SideOfTrack values; the source stores the strings "L" / "R". -/
inductive SideOfTrackType
  | L
  | R
deriving DecidableEq

/-- Grid_Type values (SICD). -/
inductive GridTypeT
  | RGAZIM
  | RGZERO
  | XRGYCR
  | XCTYAT
  | PLANE
deriving DecidableEq

/-- Image formation algorithm values; OTHER stands for any IFA other than
PFA and RGAZCOMP (for which the source's dispatch finds no function). -/
inductive IFAT
  | PFA
  | RGAZCOMP
  | OTHER
deriving DecidableEq

/-- Error taxonomy of spec section 7.  UnsupportedGrid models the
unconditional raises of the r_rdot_from_* stubs (calc.py lines 372-389),
InsufficientMetadata the ValueError of compute_coa_r_rdot (line 320),
Singular the np.linalg.inv LinAlgError, DegenerateGeometry the error the
spec demands for collinear uRow/uCol. -/
inductive CalcError
  | UnsupportedGrid
  | InsufficientMetadata
  | DegenerateGeometry
  | Singular
deriving DecidableEq

/-- Look sign from SideOfTrack: the dict lookup in the source,
L maps to +1 and R maps to -1. -/
def lookOf : SideOfTrackType → ℚ
  | SideOfTrackType.L => 1
  | SideOfTrackType.R => -1

/-- Metadata parameters relevant to projection (params.MetadataParams),
restricted to the fields the verified functions read. -/
structure MetadataParams where
  Collect_Type : CollectType
  SCP : Vec3
  SCP_Lat : ℚ
  SCP_Lon : ℚ
  SCP_HAE : ℚ
  uRow : Vec3
  uCol : Vec3
  SideOfTrack : SideOfTrackType
  Grid_Type : GridTypeT
  IFA : IFAT
  cT_COA : List (List ℚ)
  ARP_Poly : List Vec3
  GRP_Poly : List Vec3
  Xmt_Poly : List Vec3
  Rcv_Poly : List Vec3
  cPA : List ℚ
  cKSF : List ℚ
  ARP_SCP_COA : Vec3
  VARP_SCP_COA : Vec3
  Xmt_SCP_COA : Vec3
  VXmt_SCP_COA : Vec3
  Rcv_SCP_COA : Vec3
  VRcv_SCP_COA : Vec3

/-- One element of a COA position/velocity ensemble (params.CoaPosVels);
monostatic code reads the ARP fields, bistatic code the Xmt/Rcv fields. -/
structure CoaPosVelsElem where
  ARP_COA : Vec3
  VARP_COA : Vec3
  Xmt_COA : Vec3
  VXmt_COA : Vec3
  Rcv_COA : Vec3
  VRcv_COA : Vec3
deriving DecidableEq

/-- Bistatic COA positions and velocities for a 1-D batch of COA times,
as produced by compute_coa_pos_vel (calc.py lines 156-186). -/
structure BiCoaPosVels where
  GRP_COA : List Vec3
  tx_COA : List ℚ
  tr_COA : List ℚ
  Xmt_COA : List Vec3
  VXmt_COA : List Vec3
  Rcv_COA : List Vec3
  VRcv_COA : List Vec3
deriving DecidableEq

/-- Embedding of image_grid_to_image_plane_point (calc.py lines 20-50) for
one grid location: SCP + xrow * uRow + ycol * uCol.  The source maps this
elementwise over leading batch dimensions. -/
def image_grid_to_image_plane_point (m : MetadataParams) (loc : ℚ × ℚ) : Vec3 :=
  m.SCP + loc.1 • m.uRow + loc.2 • m.uCol

/-- Embedding of image_plane_point_to_image_grid (calc.py lines 53-92) for
one image plane point.  The source computes sin θ_col = sqrt(1 - cos²) and
scales the 2x2 matrix by sin θ_col ** (-2); over exact arithmetic that scale
equals (1 - cos²)⁻¹ when 1 - cos² > 0, and the IEEE evaluation produces
non-finite values (inf / NaN, no exception) when 1 - cos² ≤ 0, which is
modelled as none.  There is no raise statement in the source function. -/
def image_plane_point_to_image_grid (m : MetadataParams) (p : Vec3) :
    Option (ℚ × ℚ) :=
  let cos_theta_col := dotV m.uRow m.uCol
  let sin_theta_col_sq := 1 - cos_theta_col ^ 2
  if sin_theta_col_sq ≤ 0 then none
  else
    let d := p - m.SCP
    let a := dotV d m.uRow
    let b := dotV d m.uCol
    some (sin_theta_col_sq⁻¹ * (a - cos_theta_col * b),
          sin_theta_col_sq⁻¹ * (-cos_theta_col * a + b))

/-- Modelled from the spec: spec sections 4.2 and 7 demand that
image_plane_point_to_image_grid fail with DegenerateGeometry when
sin θ_col = 0 (uRow parallel to uCol).  This definition follows the spec's
words and exists only to be compared with the source embedding above, whose
code contains no such check. -/
def image_plane_point_to_image_grid_spec (m : MetadataParams) (p : Vec3) :
    Except CalcError (ℚ × ℚ) :=
  let cos_theta_col := dotV m.uRow m.uCol
  let sin_theta_col_sq := 1 - cos_theta_col ^ 2
  if sin_theta_col_sq = 0 then Except.error CalcError.DegenerateGeometry
  else
    let d := p - m.SCP
    let a := dotV d m.uRow
    let b := dotV d m.uCol
    Except.ok (sin_theta_col_sq⁻¹ * (a - cos_theta_col * b),
               sin_theta_col_sq⁻¹ * (-cos_theta_col * a + b))

/-- Normalization v / np.linalg.norm(v); none when the model square root is
inexact.  A zero norm gives the junk value 0 • v (IEEE would give NaN). -/
def normalizeV (v : Vec3) : Option Vec3 :=
  match ratSqrt (normSqV v) with
  | none => none
  | some n => some (n⁻¹ • v)

/-- Embedding of the bistatic branch of compute_coa_pos_vel
(calc.py lines 156-186) for a 1-D batch of COA times.  Mirroring the
source, r_x0 = np.linalg.norm(x0 - grp_coa) and r_r0 = np.linalg.norm(r0 -
grp_coa) are taken WITHOUT an axis argument, i.e. they are single Frobenius
norms over the whole batch (the square root of the sum of all squared
components), not per-element ranges. -/
def compute_coa_pos_vel_bi (m : MetadataParams) (t_coa : List ℚ) :
    Option BiCoaPosVels :=
  let grp_coa := t_coa.map (polyvalV m.GRP_Poly)
  let x0 := t_coa.map (polyvalV m.Xmt_Poly)
  match ratSqrt (((x0.zip grp_coa).map (fun ab => normSqV (ab.1 - ab.2))).sum) with
  | none => none
  | some r_x0 =>
    let tx_coa := t_coa.map (fun t => t - r_x0 / speed_of_light)
    let xmt_coa := tx_coa.map (polyvalV m.Xmt_Poly)
    let vxmt_coa := tx_coa.map (polyvalV (polyderV m.Xmt_Poly))
    let r0 := t_coa.map (polyvalV m.Rcv_Poly)
    match ratSqrt (((r0.zip grp_coa).map (fun ab => normSqV (ab.1 - ab.2))).sum) with
    | none => none
    | some r_r0 =>
      let tr_coa := t_coa.map (fun t => t + r_r0 / speed_of_light)
      let rcv_coa := tr_coa.map (polyvalV m.Rcv_Poly)
      let vrcv_coa := tr_coa.map (polyvalV (polyderV m.Rcv_Poly))
      some ⟨grp_coa, tx_coa, tr_coa, xmt_coa, vxmt_coa, rcv_coa, vrcv_coa⟩

/-- Modelled from the spec (claim C2 / spec section 4.4): per-element
retarded transmit times, each element using its own range
r = |Xmt_Poly(t_COA) - GRP_Poly(t_COA)| so that tx_COA = t_COA - r/c. -/
def claimed_tx_times (m : MetadataParams) (t_coa : List ℚ) :
    Option (List ℚ) :=
  t_coa.mapM (fun t =>
    (ratSqrt (normSqV (polyvalV m.Xmt_Poly t - polyvalV m.GRP_Poly t))).map
      (fun r => t - r / speed_of_light))

/-- Embedding of _scp_r_rdot_projection_contour_bistatic
(calc.py lines 216-241): returns (r_avg, rdot_avg, bp, bpdot) at the SCP. -/
def scp_contour_bistatic (m : MetadataParams) :
    Option (ℚ × ℚ × Vec3 × Vec3) :=
  match ratSqrt (normSqV (m.Xmt_SCP_COA - m.SCP)) with
  | none => none
  | some r_xmt =>
    let u_xmt := r_xmt⁻¹ • (m.Xmt_SCP_COA - m.SCP)
    let rdot_xmt := dotV m.VXmt_SCP_COA u_xmt
    let u_xmtdot := r_xmt⁻¹ • (m.VXmt_SCP_COA - rdot_xmt • u_xmt)
    match ratSqrt (normSqV (m.Rcv_SCP_COA - m.SCP)) with
    | none => none
    | some r_rcv =>
      let u_rcv := r_rcv⁻¹ • (m.Rcv_SCP_COA - m.SCP)
      let rdot_rcv := dotV m.VRcv_SCP_COA u_rcv
      let u_rcvdot := r_rcv⁻¹ • (m.VRcv_SCP_COA - rdot_rcv • u_rcv)
      some ((r_xmt + r_rcv) / 2, (rdot_xmt + rdot_rcv) / 2,
            (1 / 2 : ℚ) • (u_xmt + u_rcv), (1 / 2 : ℚ) • (u_xmtdot + u_rcvdot))

/-- Embedding of compute_scp_coa_slant_plane_normal (calc.py lines 244-273):
look * cross(...), normalized, with the monostatic / bistatic branch. -/
def compute_scp_coa_slant_plane_normal (m : MetadataParams) : Option Vec3 :=
  let look := lookOf m.SideOfTrack
  match m.Collect_Type with
  | CollectType.MONOSTATIC =>
      normalizeV (look • crossV (m.ARP_SCP_COA - m.SCP) m.VARP_SCP_COA)
  | CollectType.BISTATIC =>
      match scp_contour_bistatic m with
      | none => none
      | some rrbb => normalizeV (look • crossV rrbb.2.2.1 rrbb.2.2.2)

/-- Range and range rate parameters at a scene point
(params.ScenePointRRdotParams). -/
structure ScenePointRRdotParams where
  R_Avg_PT : ℚ
  Rdot_Avg_PT : ℚ
  bP_PT : Vec3
  bPDot_PT : Vec3
  uSPN_PT : Vec3
deriving DecidableEq

/-- Embedding of compute_pt_r_rdot_parameters (calc.py lines 637-692) for
one scene point. -/
def compute_pt_r_rdot_parameters (m : MetadataParams) (coa : CoaPosVelsElem)
    (pt : Vec3) : Option ScenePointRRdotParams :=
  match ratSqrt (normSqV (coa.Xmt_COA - pt)) with
  | none => none
  | some r_xmt =>
    let u_xmt := r_xmt⁻¹ • (coa.Xmt_COA - pt)
    let rdot_xmt := dotV coa.VXmt_COA u_xmt
    let u_xmtdot := r_xmt⁻¹ • (coa.VXmt_COA - rdot_xmt • u_xmt)
    match ratSqrt (normSqV (coa.Rcv_COA - pt)) with
    | none => none
    | some r_rcv =>
      let u_rcv := r_rcv⁻¹ • (coa.Rcv_COA - pt)
      let rdot_rcv := dotV coa.VRcv_COA u_rcv
      let u_rcvdot := r_rcv⁻¹ • (coa.VRcv_COA - rdot_rcv • u_rcv)
      let bp := (1 / 2 : ℚ) • (u_xmt + u_rcv)
      let bpdot := (1 / 2 : ℚ) • (u_xmtdot + u_rcvdot)
      let spn := lookOf m.SideOfTrack • crossV bp bpdot
      match normalizeV spn with
      | none => none
      | some uspn =>
          some ⟨(r_xmt + r_rcv) / 2, (rdot_xmt + rdot_rcv) / 2, bp, bpdot, uspn⟩

/-- A 2x2 matrix stored row-major: entry (i, j) is m i j. -/
structure Mat2 where
  m00 : ℚ
  m01 : ℚ
  m10 : ℚ
  m11 : ℚ
deriving DecidableEq

def mat2_det (a : Mat2) : ℚ := a.m00 * a.m11 - a.m01 * a.m10

/-- Inverse of a 2x2 matrix by the adjugate formula (what np.linalg.inv
computes when the determinant is nonzero). -/
def mat2_inv (a : Mat2) : Mat2 :=
  let d := mat2_det a
  ⟨d⁻¹ * a.m11, -(d⁻¹ * a.m01), -(d⁻¹ * a.m10), d⁻¹ * a.m00⟩

/-- Scene point ground plane XY parameters (params.ScenePointGpXyParams). -/
structure ScenePointGpXyParams where
  uGX : Vec3
  uGY : Vec3
  M_RRdot_GPXY : Mat2
  M_GPXY_RRdot : Mat2
deriving DecidableEq

/-- Embedding of compute_gp_xy_parameters (calc.py lines 695-755) for one
scene point.  The source builds m_rrdot_gpxy as np.negative(np.stack((
np.stack((bp.ugx, 0), axis=-1), np.stack((bpdot.ugx, bpdot.ugy), axis=-1)),
axis=-1)); the OUTER stack with axis=-1 makes its arguments the COLUMNS of
the 2x2 matrix, so entry (i, j) is the i-th component of the j-th stacked
pair: row 0 is (-bp.ugx, -bpdot.ugx) and row 1 is (0, -bpdot.ugy).
np.linalg.inv raising LinAlgError on an exactly singular matrix is
Except.error Singular; an inexact model square root is none. -/
def compute_gp_xy_parameters (pt ugpn bp bpdot : Vec3) :
    Option (Except CalcError ScenePointGpXyParams) :=
  let gx := bp - dotV bp ugpn • ugpn
  match ratSqrt (normSqV gx) with
  | none => none
  | some ngx =>
    let ugx := ngx⁻¹ • gx
    let sgn : ℚ := if 0 < dotV ugpn pt then 1 else -1
    let gy := sgn • crossV ugpn ugx
    match ratSqrt (normSqV gy) with
    | none => none
    | some ngy =>
      let ugy := ngy⁻¹ • gy
      let mrr : Mat2 := ⟨-dotV bp ugx, -dotV bpdot ugx, -(0 : ℚ), -dotV bpdot ugy⟩
      if mat2_det mrr = 0 then some (Except.error CalcError.Singular)
      else some (Except.ok ⟨ugx, ugy, mrr, mat2_inv mrr⟩)

/-- Modelled from the spec (claim C3 / spec section 4.7): the claimed
sensitivity matrix M_RRdot_GPXY = -[[bP.uGX, 0], [bPDot.uGX, bPDot.uGY]],
written to be compared with the matrix the source actually stacks. -/
def m_rrdot_gpxy_spec (bp bpdot ugx ugy : Vec3) : Mat2 :=
  ⟨-dotV bp ugx, -(0 : ℚ), -dotV bpdot ugx, -dotV bpdot ugy⟩

/-- The SCP reference range / range rate used by r_rdot_from_rgazim_pfa
(calc.py lines 337-346): the monostatic branch computes r_scp and rdot_scp
from the ARP, the bistatic branch takes R_Avg_PT / Rdot_Avg_PT of
compute_pt_r_rdot_parameters at the SCP. -/
def scp_ref_r_rdot (m : MetadataParams) (coa : CoaPosVelsElem) :
    Option (ℚ × ℚ) :=
  match m.Collect_Type with
  | CollectType.MONOSTATIC =>
    match ratSqrt (normSqV (coa.ARP_COA - m.SCP)) with
    | none => none
    | some r_scp =>
        some (r_scp, dotV coa.VARP_COA (coa.ARP_COA - m.SCP) / r_scp)
  | CollectType.BISTATIC =>
      (compute_pt_r_rdot_parameters m coa m.SCP).map
        (fun p => (p.R_Avg_PT, p.Rdot_Avg_PT))

/-- Embedding of r_rdot_from_rgazim_pfa (calc.py lines 325-369) for one
grid location; cosF and sinF are oracle parameters modelling np.cos and
np.sin. -/
def r_rdot_from_rgazim_pfa (cosF sinF : ℚ → ℚ) (m : MetadataParams)
    (loc : ℚ × ℚ) (t_coa : ℚ) (coa : CoaPosVelsElem) : Option (ℚ × ℚ) :=
  let rg := loc.1
  let az := loc.2
  let theta := polyvalQ m.cPA t_coa
  let dtheta_dt := polyvalQ (polyderQ m.cPA) t_coa
  let ksf := polyvalQ m.cKSF theta
  let dksf_dtheta := polyvalQ (polyderQ m.cKSF) theta
  let dphi_dka := rg * cosF theta + az * sinF theta
  let dphi_dkc := -rg * sinF theta + az * cosF theta
  let delta_r := ksf * dphi_dka
  let delta_rdot := (dksf_dtheta * dphi_dka + ksf * dphi_dkc) * dtheta_dt
  (scp_ref_r_rdot m coa).map (fun rr => (rr.1 + delta_r, rr.2 + delta_rdot))

/-- Embedding of compute_coa_r_rdot (calc.py lines 276-322) for one grid
location.  The dispatch: RGAZIM+PFA goes to r_rdot_from_rgazim_pfa; the
stubs r_rdot_from_rgazim_rgazcomp / rgzero / xrgycr / xctyat / plane raise
unconditionally (UnsupportedGrid in the spec's taxonomy); a dispatch that
finds no function raises ValueError (InsufficientMetadata). -/
def compute_coa_r_rdot (cosF sinF : ℚ → ℚ) (m : MetadataParams)
    (loc : ℚ × ℚ) (t_coa : ℚ) (coa : CoaPosVelsElem) :
    Except CalcError (Option (ℚ × ℚ)) :=
  if m.Grid_Type = GridTypeT.RGAZIM then
    if m.IFA = IFAT.PFA then
      Except.ok (r_rdot_from_rgazim_pfa cosF sinF m loc t_coa coa)
    else if m.IFA = IFAT.RGAZCOMP then Except.error CalcError.UnsupportedGrid
    else Except.error CalcError.InsufficientMetadata
  else Except.error CalcError.UnsupportedGrid

/-- One element of a monostatic projection set (params.ProjectionSets). -/
structure MonoProjectionSet where
  ARP_COA : Vec3
  VARP_COA : Vec3
  R_COA : ℚ
  Rdot_COA : ℚ
deriving DecidableEq

/-- Embedding of r_rdot_to_ground_plane_mono (calc.py lines 447-512) for
one batch element.  The three per-element No-Solution conditions
(|arpz| > R_COA, vx = 0, |cos_az| > 1) poison that element with NaN via
masked assignments and produce an all-NaN output element without raising;
NaN output is modelled as some none, a successful point as some (some pt),
and an inexact model square root as none. -/
def r_rdot_to_ground_plane_mono_elem (look : ℚ) (ps : MonoProjectionSet)
    (gref uz : Vec3) : Option (Option Vec3) :=
  let arpz := dotV (ps.ARP_COA - gref) uz
  if ps.R_COA < |arpz| then some none
  else
    let agpn := ps.ARP_COA - arpz • uz
    match ratSqrt (ps.R_COA ^ 2 - arpz ^ 2) with
    | none => none
    | some g =>
      let cos_graz := g / ps.R_COA
      let sin_graz := arpz / ps.R_COA
      let vz := dotV ps.VARP_COA uz
      match ratSqrt (normSqV ps.VARP_COA - vz ^ 2) with
      | none => none
      | some vx =>
        if vx = 0 then some none
        else
          let ux := vx⁻¹ • (ps.VARP_COA - vz • uz)
          let uy := crossV uz ux
          let cos_az := (-ps.Rdot_COA + vz * sin_graz) / (vx * cos_graz)
          if cos_az < -1 ∨ 1 < cos_az then some none
          else
            match ratSqrt (1 - cos_az ^ 2) with
            | none => none
            | some sabs =>
              let sin_az := look * sabs
              some (some (agpn + (g * cos_az) • ux + (g * sin_az) • uy))

/-- Embedding of r_rdot_to_ground_plane_mono over a 1-D batch of projection
sets with a shared plane (gref, uz): every numpy operation in the source is
elementwise over the batch, so the batch result is the elementwise map. -/
def r_rdot_to_ground_plane_mono (m : MetadataParams)
    (sets : List MonoProjectionSet) (gref uz : Vec3) :
    List (Option (Option Vec3)) :=
  sets.map (fun ps =>
    r_rdot_to_ground_plane_mono_elem (lookOf m.SideOfTrack) ps gref uz)

/-- Elements of xs at positions where mask is true (numpy boolean-mask
gather xs[mask]). -/
def gatherMask {α : Type} (mask : List Bool) (xs : List α) : List α :=
  ((mask.zip xs).filter (fun bx => bx.1)).map (fun bx => bx.2)

/-- Masked scatter-assignment orig[mask] = upd: positions where mask is
true take successive elements of upd, others keep orig. -/
def scatterMask {α : Type} : List Bool → List α → List α → List α
  | [], _, _ => []
  | _ :: _, [], _ => []
  | true :: bs, _ :: os, u :: us => u :: scatterMask bs os us
  | true :: bs, o :: os, [] => o :: scatterMask bs os []
  | false :: bs, o :: os, us => o :: scatterMask bs os us

/-- Masked in-place update orig[mask] op= aux: positions where mask is true
become f orig aux, others keep orig. -/
def maskedUpd {α β : Type} (f : α → β → α) :
    List Bool → List α → List β → List α
  | mk :: ms, a :: xs, b :: bs =>
      (if mk then f a b else a) :: maskedUpd f ms xs bs
  | _, xs, _ => xs

theorem scatterMask_get_of_false {α : Type} (mask : List Bool)
    (orig upd : List α) (i : ℕ) (h : mask.get? i = some false) :
    (scatterMask mask orig upd).get? i = orig.get? i := by
  induction mask generalizing orig upd i with
  | nil => simp [scatterMask] at h
  | cons b bs ih =>
    cases orig with
    | nil =>
      cases b <;> simp [scatterMask]
    | cons o os =>
      cases b with
      | false =>
        cases i with
        | zero => simp [scatterMask]
        | succ j =>
          simp only [scatterMask, List.get?] at h ⊢
          exact ih os upd j h
      | true =>
        cases i with
        | zero => simp [List.get?] at h
        | succ j =>
          cases upd with
          | nil =>
            simp only [scatterMask, List.get?] at h ⊢
            exact ih os [] j h
          | cons u us =>
            simp only [scatterMask, List.get?] at h ⊢
            exact ih os us j h

theorem maskedUpd_get_of_false {α β : Type} (f : α → β → α)
    (mask : List Bool) (xs : List α) (bs : List β) (i : ℕ)
    (h : mask.get? i = some false) :
    (maskedUpd f mask xs bs).get? i = xs.get? i := by
  induction mask generalizing xs bs i with
  | nil => simp [maskedUpd]
  | cons mk ms ih =>
    cases xs with
    | nil =>
      cases bs <;> simp [maskedUpd]
    | cons a ys =>
      cases bs with
      | nil => simp [maskedUpd]
      | cons b brest =>
        cases i with
        | zero =>
          simp only [List.get?] at h
          have hmk : mk = false := by
            exact Option.some.inj h
          simp [maskedUpd, List.get?, hmk]
        | succ j =>
          simp only [maskedUpd, List.get?] at h ⊢
          exact ih ys brest j h

/-- Loop state of scene_to_image (calc.py lines 813-873): the working
arrays g, image_grid_locations (loc), p, r_rdot_to_ground_success
(innerOk), delta_gp (delta), above_threshold (mask) and the success flag. -/
structure S2IState where
  g : List Vec3
  loc : List (Option (ℚ × ℚ))
  p : List (Option Vec3)
  innerOk : List Bool
  delta : List (Option ℚ)
  mask : List Bool
  success : Bool
deriving DecidableEq

/-- One iteration of the scene_to_image loop body (calc.py lines 821-872).
The collect-type-dependent block (compute the COA projection sets for the
active grid locations and project them precisely to the ground plane,
lines 833-859) is the parameter proj: it receives the active grid
locations, the active scene points (the plane reference points gref = s)
and the active ground plane normals, and returns the projected points
(none = NaN) together with the per-element r_rdot_to_ground_success flags.
Everything else is the concrete shared loop code. -/
def s2i_body
    (proj : List (Option (ℚ × ℚ)) → List Vec3 → List (Option Vec3) →
      List (Option Vec3) × List Bool)
    (m : MetadataParams) (sf : ℚ) (u_proj u_ipn : Vec3)
    (u_gpn : List (Option Vec3)) (s : List Vec3) (thr : ℚ)
    (st : S2IState) : S2IState :=
  let gAct := gatherMask st.mask st.g
  let iAct := gAct.map (fun gq => gq + (sf⁻¹ * dotV (m.SCP - gq) u_ipn) • u_proj)
  let locAct := iAct.map (image_plane_point_to_image_grid m)
  let locNew := scatterMask st.mask st.loc locAct
  let projOut := proj locAct (gatherMask st.mask s) (gatherMask st.mask u_gpn)
  let pNew := scatterMask st.mask st.p projOut.1
  let okNew := scatterMask st.mask st.innerOk projOut.2
  let deltaNew := (s.zip pNew).map
    (fun sp => sp.2.bind (fun v => ratSqrt (normSqV (sp.1 - v))))
  let maskNew := deltaNew.map (fun d => oGt d thr)
  let gNew := maskedUpd
    (fun gq sp => match sp.2 with
      | some v => gq + (sp.1 - v)
      | none => gq)
    maskNew st.g (s.zip pNew)
  { g := gNew, loc := locNew, p := pNew, innerOk := okNew, delta := deltaNew,
    mask := maskNew,
    success := deltaNew.all (fun d => oLe d thr) && okNew.all (fun b => b) }

/-- One loop step: the source breaks out of the loop as soon as success is
true, after which the state no longer changes. -/
def s2i_step
    (proj : List (Option (ℚ × ℚ)) → List Vec3 → List (Option Vec3) →
      List (Option Vec3) × List Bool)
    (m : MetadataParams) (sf : ℚ) (u_proj u_ipn : Vec3)
    (u_gpn : List (Option Vec3)) (s : List Vec3) (thr : ℚ)
    (st : S2IState) : S2IState :=
  if st.success then st else s2i_body proj m sf u_proj u_ipn u_gpn s thr st

/-- Initial scene_to_image loop state (calc.py lines 812-820): g starts at
the scene points, the output arrays start as NaN, r_rdot_to_ground_success
starts False, above_threshold starts True and success starts False. -/
def s2i_init (s : List Vec3) : S2IState :=
  { g := s, loc := s.map (fun _ => none), p := s.map (fun _ => none),
    innerOk := s.map (fun _ => false), delta := s.map (fun _ => none),
    mask := s.map (fun _ => true), success := false }

/-- The scene_to_image iteration (calc.py lines 821-873): maxiter
applications of the loop step starting from the initial state. -/
def scene_to_image_loop
    (proj : List (Option (ℚ × ℚ)) → List Vec3 → List (Option Vec3) →
      List (Option Vec3) × List Bool)
    (m : MetadataParams) (sf : ℚ) (u_proj u_ipn : Vec3)
    (u_gpn : List (Option Vec3)) (s : List Vec3) (thr : ℚ)
    (maxiter : ℕ) : S2IState :=
  (s2i_step proj m sf u_proj u_ipn u_gpn s thr)^[maxiter] (s2i_init s)

/-- The monostatic instantiation of the collect-type-dependent block of the
scene_to_image loop body (calc.py lines 833-848): per active element,
compute t_COA from cT_COA, the ARP state from ARP_Poly, the R/Rdot contour
through compute_coa_r_rdot, and project to the ground plane through
r_rdot_to_ground_plane_mono; the success flag is np.isfinite(p).all(-1).
A grid-location or normal that is already NaN / model-undefined, an
r_rdot dispatch error (which in the source aborts the whole call), or an
inexact model square root yield (none, false) here. -/
def s2i_mono_inner (cosF sinF : ℚ → ℚ) (m : MetadataParams)
    (locs : List (Option (ℚ × ℚ))) (gref : List Vec3)
    (ugpn : List (Option Vec3)) : List (Option Vec3) × List Bool :=
  let res := (locs.zip (gref.zip ugpn)).map (fun lgu =>
    match lgu.1, lgu.2.2 with
    | some lc, some un =>
      let t := polyval2dQ m.cT_COA lc.1 lc.2
      let arp := polyvalV m.ARP_Poly t
      let varp := polyvalV (polyderV m.ARP_Poly) t
      match compute_coa_r_rdot cosF sinF m lc t ⟨arp, varp, vzero, vzero, vzero, vzero⟩ with
      | Except.ok (some rr) =>
        match r_rdot_to_ground_plane_mono_elem (lookOf m.SideOfTrack)
            ⟨arp, varp, rr.1, rr.2⟩ lgu.2.1 un with
        | some (some v) => (some v, true)
        | _ => (none, false)
      | _ => (none, false)
    | _, _ => (none, false))
  (res.map (fun ab => ab.1), res.map (fun ab => ab.2))

/-- Embedding of scene_to_image (calc.py lines 758-873) for monostatic
metadata: the pre-loop setup computes per-point spherical-earth normals
u_gpn = s/|s|, the SCP slant plane normal u_proj, the image plane normal
u_ipn and the scale factor sf, then iterates the loop; returns the final
loop state (whose loc, delta and success fields are the source's return
values).  none when u_proj or u_ipn is model-inexact. -/
def scene_to_image_mono (cosF sinF : ℚ → ℚ) (m : MetadataParams)
    (s : List Vec3) (thr : ℚ) (maxiter : ℕ) : Option S2IState :=
  match compute_scp_coa_slant_plane_normal m,
        normalizeV (crossV m.uRow m.uCol) with
  | some u_proj, some u_ipn =>
    let sf := dotV u_proj u_ipn
    let u_gpn := s.map normalizeV
    some (scene_to_image_loop (s2i_mono_inner cosF sinF m) m sf u_proj u_ipn
      u_gpn s thr maxiter)
  | _, _ => none

/-- Per-element fixed data of r_rdot_to_constant_hae_surface for a
monostatic projection set element together with its target height hae0. -/
structure HaeElem where
  ARP : Vec3
  VARP : Vec3
  R : ℚ
  Rdot : ℚ
  hae0 : ℚ
deriving DecidableEq

/-- Loop state of r_rdot_to_constant_hae_surface (calc.py lines 954-1022):
gref, u_gpn, gpp, u_up, delta_hae, r_rdot_to_plane_success (planeOk),
above_threshold (mask) and the success flag. -/
structure HaeState where
  gref : List Vec3
  u_gpn : List Vec3
  gpp : List (Option Vec3)
  u_up : List (Option Vec3)
  delta_hae : List (Option ℚ)
  planeOk : List Bool
  mask : List Bool
  success : Bool
deriving DecidableEq

/-- The per-element convergence mask of r_rdot_to_constant_hae_surface
(calc.py line 1012): above_threshold = delta_hae > delta_hae_max, a SIGNED
comparison (false for NaN). -/
def hae_mask (delta : List (Option ℚ)) (dmax : ℚ) : List Bool :=
  delta.map (fun d => oGt d dmax)

/-- The success flag of r_rdot_to_constant_hae_surface (calc.py lines
1013-1015): all delta_hae <= delta_hae_max (signed, false for NaN) and all
r_rdot_to_plane_success. -/
def hae_success (delta : List (Option ℚ)) (planeOk : List Bool)
    (dmax : ℚ) : Bool :=
  delta.all (fun d => oLe d dmax) && planeOk.all (fun b => b)

/-- The local up unit vector from geodetic latitude and longitude in
degrees (_calc_up, calc.py lines 920-928); cosD and sinD are oracle
parameters modelling np.cos(np.deg2rad(.)). -/
def calc_up (cosD sinD : ℚ → ℚ) (lat lon : ℚ) : Vec3 :=
  ⟨cosD lat * cosD lon, cosD lat * sinD lon, sinD lat⟩

/-- One iteration of the monostatic r_rdot_to_constant_hae_surface loop
body (calc.py lines 962-1022).  geo is an oracle parameter modelling the
external sarkit.standards.geocoords.ecf_to_geodetic (a point's latitude,
longitude in degrees and height in meters).  Active elements are projected
to the current ground plane; per-element success is whether the projection
is finite; delta_hae = h - hae0 (signed); then the new mask and success
flag are computed, and unless success the gref / u_gpn of still-active
elements are moved for the next iteration. -/
def hae_body (geo : Vec3 → Vec3) (cosD sinD : ℚ → ℚ) (look : ℚ)
    (elems : List HaeElem) (dmax : ℚ) (st : HaeState) : HaeState :=
  let projAct := ((gatherMask st.mask elems).zip
      ((gatherMask st.mask st.gref).zip (gatherMask st.mask st.u_gpn))).map
    (fun egu => r_rdot_to_ground_plane_mono_elem look
      ⟨egu.1.ARP, egu.1.VARP, egu.1.R, egu.1.Rdot⟩ egu.2.1 egu.2.2)
  let gppAct := projAct.map (fun r =>
    match r with
    | some (some v) => some v
    | _ => none)
  let okAct := projAct.map (fun r =>
    match r with
    | some (some _) => true
    | _ => false)
  let gppNew := scatterMask st.mask st.gpp gppAct
  let okNew := scatterMask st.mask st.planeOk okAct
  let upAct := gppAct.map (fun og => og.map (fun v =>
    calc_up cosD sinD (geo v).x (geo v).y))
  let upNew := scatterMask st.mask st.u_up upAct
  let dAct := ((gatherMask st.mask elems).zip gppAct).map (fun eg =>
    eg.2.map (fun v => (geo v).z - eg.1.hae0))
  let deltaNew := scatterMask st.mask st.delta_hae dAct
  let maskNew := hae_mask deltaNew dmax
  let succNew := hae_success deltaNew okNew dmax
  if succNew then
    { gref := st.gref, u_gpn := st.u_gpn, gpp := gppNew, u_up := upNew,
      delta_hae := deltaNew, planeOk := okNew, mask := maskNew,
      success := succNew }
  else
    { gref := maskedUpd
        (fun gr odu => match odu.1, odu.2.1, odu.2.2 with
          | some gv, some dv, some uv => gv - dv • uv
          | _, _, _ => gr)
        maskNew st.gref (gppNew.zip (deltaNew.zip upNew)),
      u_gpn := maskedUpd
        (fun gu ou => match ou with
          | some uv => uv
          | none => gu)
        maskNew st.u_gpn upNew,
      gpp := gppNew, u_up := upNew, delta_hae := deltaNew, planeOk := okNew,
      mask := maskNew, success := succNew }

/-- One loop step of r_rdot_to_constant_hae_surface: the source breaks out
of the loop as soon as success is true. -/
def hae_step (geo : Vec3 → Vec3) (cosD sinD : ℚ → ℚ) (look : ℚ)
    (elems : List HaeElem) (dmax : ℚ) (st : HaeState) : HaeState :=
  if st.success then st else hae_body geo cosD sinD look elems dmax st

/-- Initial state of the r_rdot_to_constant_hae_surface loop (calc.py
lines 930-961): ground plane 1 has normal u_gpn1 = local up at the SCP and
reference point gref1 = SCP + (hae0 - SCP_HAE) * u_gpn1; the output arrays
start as NaN, r_rdot_to_plane_success False, above_threshold True. -/
def hae_init (cosD sinD : ℚ → ℚ) (m : MetadataParams)
    (elems : List HaeElem) : HaeState :=
  let u_gpn1 := calc_up cosD sinD m.SCP_Lat m.SCP_Lon
  { gref := elems.map (fun e => m.SCP + (e.hae0 - m.SCP_HAE) • u_gpn1),
    u_gpn := elems.map (fun _ => u_gpn1),
    gpp := elems.map (fun _ => none), u_up := elems.map (fun _ => none),
    delta_hae := elems.map (fun _ => none),
    planeOk := elems.map (fun _ => false),
    mask := elems.map (fun _ => true), success := false }

/-- The iterative part of r_rdot_to_constant_hae_surface (calc.py lines
876-1022) for monostatic metadata: nlim applications of the loop step.
The post-loop straight-line refinement to the SPP (lines 1024-1055) is not
modelled here; the claims below concern the loop's convergence logic. -/
def r_rdot_to_constant_hae_surface_loop (geo : Vec3 → Vec3)
    (cosD sinD : ℚ → ℚ) (m : MetadataParams) (elems : List HaeElem)
    (dmax : ℚ) (nlim : ℕ) : HaeState :=
  (hae_step geo cosD sinD (lookOf m.SideOfTrack) elems dmax)^[nlim]
    (hae_init cosD sinD m elems)

theorem dotV_add_left (a b c : Vec3) : dotV (a + b) c = dotV a c + dotV b c := by
  rcases a with ⟨a1, a2, a3⟩
  rcases b with ⟨b1, b2, b3⟩
  rcases c with ⟨c1, c2, c3⟩
  simp only [dotV, vadd_x, vadd_y, vadd_z]
  ring

theorem dotV_smul_left (r : ℚ) (a b : Vec3) : dotV (r • a) b = r * dotV a b := by
  rcases a with ⟨a1, a2, a3⟩
  rcases b with ⟨b1, b2, b3⟩
  simp only [dotV, vsmul_x, vsmul_y, vsmul_z]
  ring

theorem dotV_comm (a b : Vec3) : dotV a b = dotV b a := by
  rcases a with ⟨a1, a2, a3⟩
  rcases b with ⟨b1, b2, b3⟩
  simp only [dotV]
  ring

/-- A monostatic RGAZIM+PFA metadata instance with orthonormal image plane
axes, used as concrete input for witnesses (spec section 8, scenario 1). -/
def metaOrtho : MetadataParams :=
  { Collect_Type := CollectType.MONOSTATIC, SCP := vzero,
    SCP_Lat := 0, SCP_Lon := 0, SCP_HAE := 0,
    uRow := ⟨1, 0, 0⟩, uCol := ⟨0, 1, 0⟩,
    SideOfTrack := SideOfTrackType.L,
    Grid_Type := GridTypeT.RGAZIM, IFA := IFAT.PFA,
    cT_COA := [[0]], ARP_Poly := [⟨0, 0, 100000⟩],
    GRP_Poly := [vzero], Xmt_Poly := [vzero], Rcv_Poly := [vzero],
    cPA := [0], cKSF := [0],
    ARP_SCP_COA := ⟨0, 0, 100000⟩, VARP_SCP_COA := ⟨1, 0, 0⟩,
    Xmt_SCP_COA := ⟨0, 0, 1⟩, VXmt_SCP_COA := ⟨1, 0, 0⟩,
    Rcv_SCP_COA := ⟨0, 0, 1⟩, VRcv_SCP_COA := ⟨1, 0, 0⟩ }

/-- A metadata instance with collinear (equal) unit uRow and uCol. -/
def metaColl : MetadataParams :=
  { metaOrtho with uCol := ⟨1, 0, 0⟩ }

/-- C1: for every metadata with unit-length, non-collinear uRow and uCol
and every image grid location L, applying image_grid_to_image_plane_point
to L and then image_plane_point_to_image_grid to the result returns L to
within 1e-9 m in each component (in the exact model, the round trip is
exact). -/
theorem c1_round_trip (m : MetadataParams) (L : ℚ × ℚ)
    (hr : dotV m.uRow m.uRow = 1) (hc : dotV m.uCol m.uCol = 1)
    (hnc : crossV m.uRow m.uCol ≠ vzero) :
    within_pair (image_plane_point_to_image_grid m
      (image_grid_to_image_plane_point m L)) L (1 / 1000000000) = true := by
  have hl := lagrange_identity m.uRow m.uCol
  simp only [normSqV] at hl
  rw [hr, hc] at hl
  have hpos : 0 < 1 - dotV m.uRow m.uCol ^ 2 := by
    have hp := normSqV_pos_of_ne _ hnc
    simp only [normSqV] at hp
    rw [hl] at hp
    linarith
  have hne : 1 - dotV m.uRow m.uCol ^ 2 ≠ 0 := ne_of_gt hpos
  have hd : image_grid_to_image_plane_point m L - m.SCP =
      L.1 • m.uRow + L.2 • m.uCol := by
    unfold image_grid_to_image_plane_point
    apply Vec3.ext3 <;> simp <;> ring
  have ha : dotV (image_grid_to_image_plane_point m L - m.SCP) m.uRow =
      L.1 + L.2 * dotV m.uRow m.uCol := by
    rw [hd, dotV_add_left, dotV_smul_left, dotV_smul_left, hr,
      dotV_comm m.uCol m.uRow]
    ring
  have hb : dotV (image_grid_to_image_plane_point m L - m.SCP) m.uCol =
      L.1 * dotV m.uRow m.uCol + L.2 := by
    rw [hd, dotV_add_left, dotV_smul_left, dotV_smul_left, hc]
    ring
  have key : image_plane_point_to_image_grid m
      (image_grid_to_image_plane_point m L) = some (L.1, L.2) := by
    unfold image_plane_point_to_image_grid
    rw [if_neg (not_le.mpr hpos)]
    simp only [ha, hb]
    have h1 : (1 - dotV m.uRow m.uCol ^ 2)⁻¹ *
        (L.1 + L.2 * dotV m.uRow m.uCol -
          dotV m.uRow m.uCol * (L.1 * dotV m.uRow m.uCol + L.2)) = L.1 := by
      field_simp
      ring
    have h2 : (1 - dotV m.uRow m.uCol ^ 2)⁻¹ *
        (-dotV m.uRow m.uCol * (L.1 + L.2 * dotV m.uRow m.uCol) +
          (L.1 * dotV m.uRow m.uCol + L.2)) = L.2 := by
      field_simp
      ring
    rw [h1, h2]
  rw [key]
  simp [within_pair]

/-- Witness for C1 at the concrete orthonormal metadata and L = (2, 3). -/
theorem c1_round_trip_witness :
    within_pair (image_plane_point_to_image_grid metaOrtho
      (image_grid_to_image_plane_point metaOrtho (2, 3))) (2, 3)
      (1 / 1000000000) = true :=
  c1_round_trip metaOrtho (2, 3) (by with_unfolding_all rfl)
    (by with_unfolding_all rfl)
    (of_decide_eq_true (by with_unfolding_all rfl))

/-- C6 counterexample: at the collinear metadata metaColl the source
function returns (the model of) non-finite values -- none, standing for the
NaN/inf the IEEE evaluation produces -- while the spec-modelled variant
demands an aborting DegenerateGeometry error.  The call completes and
yields output; it does not abort. -/
theorem c6_counterexample :
    image_plane_point_to_image_grid metaColl ⟨5, 0, 0⟩ = none ∧
    image_plane_point_to_image_grid_spec metaColl ⟨5, 0, 0⟩ =
      Except.error CalcError.DegenerateGeometry := by
  constructor
  · with_unfolding_all rfl
  · with_unfolding_all rfl

/-- C6 amended: for metadata with unit-length, collinear uRow and uCol,
image_plane_point_to_image_grid raises no error; sin θ_col = 0 makes the
matrix scale a division by zero and the function returns non-finite values
(modelled none) for every input point. -/
theorem c6_collinear_returns_nonfinite (m : MetadataParams) (p : Vec3)
    (hr : dotV m.uRow m.uRow = 1) (hc : dotV m.uCol m.uCol = 1)
    (hcol : crossV m.uRow m.uCol = vzero) :
    image_plane_point_to_image_grid m p = none := by
  have hl := lagrange_identity m.uRow m.uCol
  simp only [normSqV] at hl
  rw [hr, hc, hcol] at hl
  have h0 : dotV vzero vzero = 0 := by norm_num [dotV, vzero]
  rw [h0] at hl
  unfold image_plane_point_to_image_grid
  rw [if_pos]
  linarith

/-- Witness for the amended C6 at the concrete collinear metadata. -/
theorem c6_collinear_witness :
    image_plane_point_to_image_grid metaColl ⟨7, 2, 0⟩ = none :=
  c6_collinear_returns_nonfinite metaColl ⟨7, 2, 0⟩
    (by with_unfolding_all rfl) (by with_unfolding_all rfl)
    (by with_unfolding_all rfl)

theorem one_smul_v (v : Vec3) : (1 : ℚ) • v = v := by
  apply Vec3.ext3 <;> simp

theorem neg_one_smul_v (v : Vec3) : (-1 : ℚ) • v = -v := by
  apply Vec3.ext3 <;> simp

theorem normalizeV_neg (v : Vec3) :
    normalizeV (-v) = Option.map (fun w => -w) (normalizeV v) := by
  unfold normalizeV
  rw [normSqV_vneg]
  cases h : ratSqrt (normSqV v) with
  | none => rfl
  | some n =>
    simp only [Option.map]
    refine congrArg some ?_
    apply Vec3.ext3 <;> simp

/-- C9: flipping SideOfTrack from LEFT to RIGHT, all other metadata fields
fixed, negates the unit vector returned by
compute_scp_coa_slant_plane_normal (monostatic and bistatic), with LEFT
mapping to look sign +1 and RIGHT to -1. -/
theorem c9_side_of_track_flip (m : MetadataParams) :
    lookOf SideOfTrackType.L = 1 ∧ lookOf SideOfTrackType.R = -1 ∧
    compute_scp_coa_slant_plane_normal
        { m with SideOfTrack := SideOfTrackType.R } =
      Option.map (fun w => -w) (compute_scp_coa_slant_plane_normal
        { m with SideOfTrack := SideOfTrackType.L }) := by
  refine ⟨rfl, rfl, ?_⟩
  unfold compute_scp_coa_slant_plane_normal
  have eCR : ({ m with SideOfTrack := SideOfTrackType.R } :
      MetadataParams).Collect_Type = m.Collect_Type := rfl
  have eCL : ({ m with SideOfTrack := SideOfTrackType.L } :
      MetadataParams).Collect_Type = m.Collect_Type := rfl
  have eLR : lookOf ({ m with SideOfTrack := SideOfTrackType.R } :
      MetadataParams).SideOfTrack = -1 := rfl
  have eLL : lookOf ({ m with SideOfTrack := SideOfTrackType.L } :
      MetadataParams).SideOfTrack = 1 := rfl
  have eAR : ({ m with SideOfTrack := SideOfTrackType.R } :
      MetadataParams).ARP_SCP_COA = m.ARP_SCP_COA := rfl
  have eAL : ({ m with SideOfTrack := SideOfTrackType.L } :
      MetadataParams).ARP_SCP_COA = m.ARP_SCP_COA := rfl
  have eSR : ({ m with SideOfTrack := SideOfTrackType.R } :
      MetadataParams).SCP = m.SCP := rfl
  have eSL : ({ m with SideOfTrack := SideOfTrackType.L } :
      MetadataParams).SCP = m.SCP := rfl
  have eVR : ({ m with SideOfTrack := SideOfTrackType.R } :
      MetadataParams).VARP_SCP_COA = m.VARP_SCP_COA := rfl
  have eVL : ({ m with SideOfTrack := SideOfTrackType.L } :
      MetadataParams).VARP_SCP_COA = m.VARP_SCP_COA := rfl
  have eBR : scp_contour_bistatic
      { m with SideOfTrack := SideOfTrackType.R } = scp_contour_bistatic m :=
    rfl
  have eBL : scp_contour_bistatic
      { m with SideOfTrack := SideOfTrackType.L } = scp_contour_bistatic m :=
    rfl
  rw [eCR, eCL, eLR, eLL, eAR, eAL, eSR, eSL, eVR, eVL, eBR, eBL]
  cases hC : m.Collect_Type with
  | MONOSTATIC =>
    simp only []
    rw [neg_one_smul_v, one_smul_v, normalizeV_neg]
  | BISTATIC =>
    cases hB : scp_contour_bistatic m with
    | none => rfl
    | some rrbb =>
      simp only []
      rw [neg_one_smul_v, one_smul_v, normalizeV_neg]

/-- A bistatic metadata instance whose transmit/receive APC displacements
from the GRP have ranges 3 m (at t = 0) and 4 m (at t = 1). -/
def metaBi : MetadataParams :=
  { metaOrtho with
    Collect_Type := CollectType.BISTATIC
    Xmt_Poly := [⟨3, 0, 0⟩, ⟨-3, 4, 0⟩]
    Rcv_Poly := [⟨3, 0, 0⟩, ⟨-3, 4, 0⟩] }

/-- C2 (code behaviour at a failing input): for the batch of COA times
[0, 1] the source's transmit times subtract the single whole-batch
Frobenius norm sqrt(3² + 4²) = 5 from every element, while the claimed
per-element computation subtracts each element's own range (3, then 4);
the two disagree. -/
theorem c2_frobenius_not_elementwise :
    (compute_coa_pos_vel_bi metaBi [0, 1]).map BiCoaPosVels.tx_COA =
      some [-(5 / speed_of_light), 1 - 5 / speed_of_light] ∧
    claimed_tx_times metaBi [0, 1] =
      some [-(3 / speed_of_light), 1 - 4 / speed_of_light] ∧
    (compute_coa_pos_vel_bi metaBi [0, 1]).map BiCoaPosVels.tx_COA ≠
      claimed_tx_times metaBi [0, 1] := by
  refine ⟨?_, ?_, ?_⟩
  · with_unfolding_all rfl
  · with_unfolding_all rfl
  · exact of_decide_eq_true (by with_unfolding_all rfl)

/-- C3 (code behaviour at a failing input): at a concrete scene point and
pointing geometry with bPDot.uGX = 1 ≠ 0, the matrix the source stores has
first row (-bP.uGX, -bPDot.uGX) = (-1, -1) and second row (0, -bPDot.uGY)
= (0, -2): the transpose of the matrix the claim states, whose first row
is (-bP.uGX, 0).  M_GPXY_RRdot is the inverse of the stored matrix. -/
theorem c3_matrix_is_transposed :
    compute_gp_xy_parameters ⟨0, 0, 1⟩ ⟨0, 0, 1⟩ ⟨1, 0, 1⟩ ⟨1, 2, 0⟩ =
      some (Except.ok ⟨⟨1, 0, 0⟩, ⟨0, 1, 0⟩, ⟨-1, -1, 0, -2⟩,
        ⟨-1, 1 / 2, 0, -(1 / 2)⟩⟩) ∧
    m_rrdot_gpxy_spec ⟨1, 0, 1⟩ ⟨1, 2, 0⟩ ⟨1, 0, 0⟩ ⟨0, 1, 0⟩ =
      ⟨-1, 0, -1, -2⟩ ∧
    (⟨-1, -1, 0, -2⟩ : Mat2) ≠
      m_rrdot_gpxy_spec ⟨1, 0, 1⟩ ⟨1, 2, 0⟩ ⟨1, 0, 0⟩ ⟨0, 1, 0⟩ := by
  refine ⟨?_, ?_, ?_⟩
  · with_unfolding_all rfl
  · with_unfolding_all rfl
  · exact of_decide_eq_true (by with_unfolding_all rfl)

/-- A monostatic projection set element with |arpz| = 10 > R_COA = 5
(no ground-plane solution). -/
def psBad : MonoProjectionSet := ⟨⟨0, 0, 10⟩, ⟨1, 0, 0⟩, 5, 0⟩

/-- A monostatic projection set element with an exact-arithmetic
ground-plane solution (3-4-5 geometry). -/
def psGood : MonoProjectionSet := ⟨⟨0, 0, 4⟩, ⟨2, 0, 0⟩, 5, -(18 / 25)⟩

/-- C4: in a batch of monostatic projection sets, an element whose
|arpz| exceeds R_COA yields NaN (some none) at that position of the
r_rdot_to_ground_plane_mono output without any exception, and every other
position is exactly the element function of its own projection set --
elements do not affect one another. -/
theorem c4_no_solution_nan (m : MetadataParams)
    (sets : List MonoProjectionSet) (gref uz : Vec3) (i j : ℕ)
    (ps : MonoProjectionSet) (hget : sets.get? i = some ps)
    (h : ps.R_COA < |dotV (ps.ARP_COA - gref) uz|) :
    (r_rdot_to_ground_plane_mono m sets gref uz).get? i = some (some none) ∧
    (r_rdot_to_ground_plane_mono m sets gref uz).get? j =
      (sets.get? j).map (fun q =>
        r_rdot_to_ground_plane_mono_elem (lookOf m.SideOfTrack) q gref uz) := by
  constructor
  · unfold r_rdot_to_ground_plane_mono
    rw [List.get?_map, hget]
    simp only [Option.map_some']
    refine congrArg some ?_
    unfold r_rdot_to_ground_plane_mono_elem
    rw [if_pos h]
  · unfold r_rdot_to_ground_plane_mono
    exact List.get?_map _ _ _

/-- Witness for C4: a two-element batch whose first element has
|arpz| = 10 > R = 5 and whose second is an exact 3-4-5 geometry. -/
theorem c4_no_solution_nan_witness :
    (r_rdot_to_ground_plane_mono metaOrtho [psBad, psGood] vzero
      ⟨0, 0, 1⟩).get? 0 = some (some none) ∧
    (r_rdot_to_ground_plane_mono metaOrtho [psBad, psGood] vzero
      ⟨0, 0, 1⟩).get? 1 =
      ([psBad, psGood].get? 1).map (fun q =>
        r_rdot_to_ground_plane_mono_elem (lookOf metaOrtho.SideOfTrack) q
          vzero ⟨0, 0, 1⟩) :=
  c4_no_solution_nan metaOrtho [psBad, psGood] vzero ⟨0, 0, 1⟩ 0 1 psBad
    (by with_unfolding_all rfl)
    (of_decide_eq_true (by with_unfolding_all rfl))

/-- C5: for every metadata whose (Grid_Type, IFA) pair is one of RGZERO,
XRGYCR, XCTYAT, PLANE (any IFA) or RGAZIM+RGAZCOMP, compute_coa_r_rdot
raises UnsupportedGrid for every input and never returns a value. -/
theorem c5_unsupported_grid (cosF sinF : ℚ → ℚ) (m : MetadataParams)
    (h : m.Grid_Type = GridTypeT.RGZERO ∨ m.Grid_Type = GridTypeT.XRGYCR ∨
      m.Grid_Type = GridTypeT.XCTYAT ∨ m.Grid_Type = GridTypeT.PLANE ∨
      (m.Grid_Type = GridTypeT.RGAZIM ∧ m.IFA = IFAT.RGAZCOMP))
    (loc : ℚ × ℚ) (t : ℚ) (coa : CoaPosVelsElem) :
    compute_coa_r_rdot cosF sinF m loc t coa =
      Except.error CalcError.UnsupportedGrid := by
  unfold compute_coa_r_rdot
  rcases h with h | h | h | h | ⟨h1, h2⟩
  · rw [if_neg (by simp [h])]
  · rw [if_neg (by simp [h])]
  · rw [if_neg (by simp [h])]
  · rw [if_neg (by simp [h])]
  · rw [if_pos h1, if_neg (by simp [h2]), if_pos h2]

/-- A metadata instance with the unsupported Grid_Type = PLANE
(spec section 8, scenario 6). -/
def metaPlane : MetadataParams := { metaOrtho with Grid_Type := GridTypeT.PLANE }

def coaZero : CoaPosVelsElem := ⟨vzero, vzero, vzero, vzero, vzero, vzero⟩

/-- A concrete cosine oracle. -/
def cosOne : ℚ → ℚ := fun _ => 1

/-- A concrete sine oracle. -/
def sinZero : ℚ → ℚ := fun _ => 0

/-- Witness for C5 at Grid_Type = PLANE. -/
theorem c5_unsupported_grid_witness :
    compute_coa_r_rdot cosOne sinZero metaPlane (0, 0) 0 coaZero =
      Except.error CalcError.UnsupportedGrid :=
  c5_unsupported_grid cosOne sinZero metaPlane
    (Or.inr (Or.inr (Or.inr (Or.inl rfl)))) (0, 0) 0 coaZero

/-- C8: for RGAZIM+PFA metadata, any trig oracle, any COA time and any COA
position/velocity element, the R/Rdot contour at grid location
(rg, az) = (0, 0) is exactly the SCP reference pair (r_SCP, rdot_SCP):
the delta terms vanish. -/
theorem c8_pfa_scp_reference (cosF sinF : ℚ → ℚ) (m : MetadataParams)
    (hG : m.Grid_Type = GridTypeT.RGAZIM) (hI : m.IFA = IFAT.PFA)
    (t : ℚ) (coa : CoaPosVelsElem) :
    compute_coa_r_rdot cosF sinF m (0, 0) t coa =
      Except.ok (scp_ref_r_rdot m coa) := by
  unfold compute_coa_r_rdot
  rw [if_pos hG, if_pos hI]
  refine congrArg Except.ok ?_
  unfold r_rdot_from_rgazim_pfa
  cases hs : scp_ref_r_rdot m coa with
  | none => simp [hs]
  | some rr =>
    obtain ⟨r, rd⟩ := rr
    simp [hs]

/-- A COA element with ARP at distance 5 from the SCP (3-4-5 geometry). -/
def coa8 : CoaPosVelsElem := ⟨⟨3, 4, 0⟩, ⟨1, 0, 0⟩, vzero, vzero, vzero, vzero⟩

/-- Witness for C8 at concrete monostatic metadata: the contour at (0, 0)
is the SCP reference pair (5, 3/5). -/
theorem c8_pfa_scp_reference_witness :
    compute_coa_r_rdot cosOne sinZero metaOrtho (0, 0) 0 coa8 =
      Except.ok (scp_ref_r_rdot metaOrtho coa8) ∧
    scp_ref_r_rdot metaOrtho coa8 = some (5, 3 / 5) :=
  ⟨c8_pfa_scp_reference cosOne sinZero metaOrtho rfl rfl 0 coa8,
   by with_unfolding_all rfl⟩

theorem s2i_body_success_eq
    (proj : List (Option (ℚ × ℚ)) → List Vec3 → List (Option Vec3) →
      List (Option Vec3) × List Bool)
    (m : MetadataParams) (sf : ℚ) (u_proj u_ipn : Vec3)
    (u_gpn : List (Option Vec3)) (s : List Vec3) (thr : ℚ) (st : S2IState) :
    (s2i_body proj m sf u_proj u_ipn u_gpn s thr st).success =
      ((s2i_body proj m sf u_proj u_ipn u_gpn s thr st).delta.all
          (fun d => oLe d thr) &&
        (s2i_body proj m sf u_proj u_ipn u_gpn s thr st).innerOk.all
          (fun b => b)) := rfl

/-- C7: after at least one iteration, the scene_to_image loop (with any
collect-type-dependent inner projection block) returns success = true
exactly when every element's final displacement delta_gp is at most
delta_gp_s2i AND every element's inner R/Rdot-to-ground-plane result is
finite (its r_rdot_to_ground_success flag is set; for the bistatic inner
block that flag is the inner solver's convergence). -/
theorem c7_success_iff
    (proj : List (Option (ℚ × ℚ)) → List Vec3 → List (Option Vec3) →
      List (Option Vec3) × List Bool)
    (m : MetadataParams) (sf : ℚ) (u_proj u_ipn : Vec3)
    (u_gpn : List (Option Vec3)) (s : List Vec3) (thr : ℚ) (n : ℕ)
    (hn : 1 ≤ n) :
    ((scene_to_image_loop proj m sf u_proj u_ipn u_gpn s thr n).success =
        true ↔
      ((scene_to_image_loop proj m sf u_proj u_ipn u_gpn s thr n).delta.all
          (fun d => oLe d thr) = true ∧
        (scene_to_image_loop proj m sf u_proj u_ipn u_gpn s thr n).innerOk.all
          (fun b => b) = true)) := by
  obtain ⟨k, rfl⟩ : ∃ k, n = k + 1 := ⟨n - 1, (Nat.succ_pred_eq_of_pos hn).symm⟩
  unfold scene_to_image_loop
  have key : ∀ j : ℕ,
      ((s2i_step proj m sf u_proj u_ipn u_gpn s thr)^[j + 1]
          (s2i_init s)).success =
        (((s2i_step proj m sf u_proj u_ipn u_gpn s thr)^[j + 1]
            (s2i_init s)).delta.all (fun d => oLe d thr) &&
          ((s2i_step proj m sf u_proj u_ipn u_gpn s thr)^[j + 1]
            (s2i_init s)).innerOk.all (fun b => b)) := by
    intro j
    induction j with
    | zero =>
      rw [Function.iterate_one]
      unfold s2i_step
      rw [if_neg (by simp [s2i_init])]
      exact s2i_body_success_eq proj m sf u_proj u_ipn u_gpn s thr (s2i_init s)
    | succ j ih =>
      rw [Function.iterate_succ_apply']
      set st := (s2i_step proj m sf u_proj u_ipn u_gpn s thr)^[j + 1]
        (s2i_init s) with hst
      unfold s2i_step
      by_cases hs : st.success = true
      · rw [if_pos hs]
        exact ih
      · rw [if_neg hs]
        exact s2i_body_success_eq proj m sf u_proj u_ipn u_gpn s thr st
  rw [key k, Bool.and_eq_true]

/-- A trivial inner projection block used as concrete instantiation in the
C7 witness. -/
def projTriv : List (Option (ℚ × ℚ)) → List Vec3 → List (Option Vec3) →
    List (Option Vec3) × List Bool :=
  fun locs _ _ => (locs.map (fun _ => none), locs.map (fun _ => false))

/-- Witness for C7, at a concrete one-point batch and one iteration. -/
theorem c7_success_iff_witness :
    ((scene_to_image_loop projTriv metaOrtho 1 ⟨0, 0, 1⟩ ⟨0, 0, 1⟩
        [some ⟨0, 0, 1⟩] [⟨1, 2, 0⟩] 1 1).success = true ↔
      ((scene_to_image_loop projTriv metaOrtho 1 ⟨0, 0, 1⟩ ⟨0, 0, 1⟩
          [some ⟨0, 0, 1⟩] [⟨1, 2, 0⟩] 1 1).delta.all
          (fun d => oLe d 1) = true ∧
        (scene_to_image_loop projTriv metaOrtho 1 ⟨0, 0, 1⟩ ⟨0, 0, 1⟩
          [some ⟨0, 0, 1⟩] [⟨1, 2, 0⟩] 1 1).innerOk.all
          (fun b => b) = true)) :=
  c7_success_iff projTriv metaOrtho 1 ⟨0, 0, 1⟩ ⟨0, 0, 1⟩
    [some ⟨0, 0, 1⟩] [⟨1, 2, 0⟩] 1 1 (Nat.le_refl 1)

theorem hae_body_preserves_frozen (geo : Vec3 → Vec3) (cosD sinD : ℚ → ℚ)
    (look : ℚ) (elems : List HaeElem) (dmax : ℚ) (st : HaeState) (i : ℕ)
    (d0 : Option ℚ) (hm : st.mask.get? i = some false)
    (hd0 : st.delta_hae.get? i = some d0) (hngt : oGt d0 dmax = false) :
    (hae_body geo cosD sinD look elems dmax st).delta_hae.get? i =
      st.delta_hae.get? i ∧
    (hae_body geo cosD sinD look elems dmax st).gref.get? i =
      st.gref.get? i := by
  constructor
  · unfold hae_body
    simp only []
    split
    · exact scatterMask_get_of_false st.mask st.delta_hae _ i hm
    · exact scatterMask_get_of_false st.mask st.delta_hae _ i hm
  · unfold hae_body
    simp only []
    split
    · rfl
    · apply maskedUpd_get_of_false
      unfold hae_mask
      rw [List.get?_map, scatterMask_get_of_false st.mask st.delta_hae _ i hm,
        hd0]
      simp [hngt]

/-- C10: in the r_rdot_to_constant_hae_surface loop the convergence test
compares the SIGNED height difference delta_hae = h - hae0 to
delta_hae_max.  For any post-iteration state (mask and success consistent
with the loop body's formulas) in which element i has delta_hae = d with
d < -delta_hae_max: (a) the element is not above threshold, so it is
frozen; (b) |d| exceeds delta_hae_max; (c) if every element's signed
delta_hae is at most delta_hae_max and every ground-plane projection was
finite, success = true anyway; (d) a further loop step leaves the
element's delta_hae and gref unchanged (no further iteration for it). -/
theorem c10_negative_delta_frozen (geo : Vec3 → Vec3) (cosD sinD : ℚ → ℚ)
    (look : ℚ) (elems : List HaeElem) (dmax : ℚ) (t : HaeState) (i : ℕ)
    (d : ℚ) (hmax : 0 ≤ dmax)
    (hmask : t.mask = hae_mask t.delta_hae dmax)
    (hsucc : t.success = hae_success t.delta_hae t.planeOk dmax)
    (hget : t.delta_hae.get? i = some (some d)) (hd : d < -dmax) :
    t.mask.get? i = some false ∧
    dmax < |d| ∧
    (t.delta_hae.all (fun o => oLe o dmax) = true →
      t.planeOk.all (fun b => b) = true → t.success = true) ∧
    (hae_step geo cosD sinD look elems dmax t).delta_hae.get? i =
      some (some d) ∧
    (hae_step geo cosD sinD look elems dmax t).gref.get? i =
      t.gref.get? i := by
  have hngt : oGt (some d) dmax = false := by
    simp only [oGt, decide_eq_false_iff_not]
    intro hlt
    linarith
  have hmi : t.mask.get? i = some false := by
    rw [hmask]
    unfold hae_mask
    rw [List.get?_map, hget]
    simp [hngt]
  refine ⟨hmi, ?_, ?_, ?_⟩
  · rw [abs_of_neg (by linarith)]
    linarith
  · intro h1 h2
    rw [hsucc]
    unfold hae_success
    rw [h1, h2]
    rfl
  · unfold hae_step
    by_cases hs : t.success = true
    · rw [if_pos hs]
      exact ⟨hget, rfl⟩
    · rw [if_neg hs]
      have hp := hae_body_preserves_frozen geo cosD sinD look elems dmax t i
        (some d) hmi hget hngt
      exact ⟨hp.1.trans hget, hp.2⟩

/-- A one-element HAE projection input (3-4-5 geometry, hae0 = 0). -/
def haeElemT : HaeElem := ⟨⟨0, 0, 4⟩, ⟨2, 0, 0⟩, 5, -(18 / 25), 0⟩

/-- A concrete post-iteration HAE loop state whose single element has
signed delta_hae = -5 (its ground-plane point is 5 m below the HAE0
surface) and a finite (converged) ground-plane projection. -/
def haeStateT : HaeState :=
  { gref := [vzero], u_gpn := [⟨0, 0, 1⟩], gpp := [some vzero],
    u_up := [some ⟨0, 0, 1⟩], delta_hae := [some (-5)], planeOk := [true],
    mask := [false], success := true }

/-- The identity geodetic oracle used in the C10 witness. -/
def geoId : Vec3 → Vec3 := fun v => v

/-- Witness for C10 with delta_hae_max = 1 (the source default) and
delta_hae = -5. -/
theorem c10_negative_delta_frozen_witness :
    haeStateT.mask.get? 0 = some false ∧
    (1 : ℚ) < |(-5 : ℚ)| ∧
    (haeStateT.delta_hae.all (fun o => oLe o 1) = true →
      haeStateT.planeOk.all (fun b => b) = true →
      haeStateT.success = true) ∧
    (hae_step geoId cosOne sinZero 1 [haeElemT] 1 haeStateT).delta_hae.get? 0 =
      some (some (-5)) ∧
    (hae_step geoId cosOne sinZero 1 [haeElemT] 1 haeStateT).gref.get? 0 =
      haeStateT.gref.get? 0 :=
  c10_negative_delta_frozen geoId cosOne sinZero 1 [haeElemT] 1 haeStateT 0
    (-5) (of_decide_eq_true (by with_unfolding_all rfl))
    (by with_unfolding_all rfl) (by with_unfolding_all rfl)
    (by with_unfolding_all rfl)
    (of_decide_eq_true (by with_unfolding_all rfl))
